import Mathlib

/-!
Verification of the OmniSell frontend API client (src/api-service.js) and of the
cart/checkout/order core described by the repository specification.

The first part is a shallow embedding of the client code in api-service.js:
JSON values, the shared response handler `handleResponse`, the HTTP requests
each client function issues, and the localStorage effects of the auth helpers.
The second part models the backend checkout/payment core, which is not shipped
in this repository (only the client is); those definitions are modelled from
the specification and say so in their doc comments.
-/

namespace ApiService

/-- A JSON value, as produced by `response.json()` in the client. -/
inductive JVal where
  | null
  | str (s : String)
  | bool (b : Bool)
  | num (n : Int)
  | arr (l : List JVal)
  | obj (fields : List (String × JVal))

/-- A JSON object: an ordered field list, mirroring a JS object literal. -/
abbrev Obj := List (String × JVal)

/-- JS property access `data.key`: first field with that name, else undefined. -/
def lookupObj (data : Obj) (key : String) : Option JVal :=
  match data with
  | [] => none
  | (k, v) :: rest => if k = key then some v else lookupObj rest key

/-- JS truthiness of a JSON value (`if (v)` / `v || fallback`). -/
def jTruthy : JVal → Bool
  | .null => false
  | .str s => s ≠ ""
  | .bool b => b
  | .num n => n ≠ 0
  | .arr _ => true
  | .obj _ => true

mutual

/-- JS stringification of a value as an element of `Array.prototype.join`:
null becomes the empty string, an array joins its elements with a comma,
an object prints as in JS. -/
def elemToString : JVal → String
  | .null => ""
  | .str s => s
  | .bool b => if b then "true" else "false"
  | .num n => toString n
  | .arr l => listJoin l
  | .obj _ => "[object Object]"

/-- `Array.prototype.join` with the default comma separator. -/
def listJoin : List JVal → String
  | [] => ""
  | [v] => elemToString v
  | v :: rest => elemToString v ++ "," ++ listJoin rest

end

/-- One level of `Array.prototype.flat` over a JS value list. -/
def flat1 : List JVal → List JVal
  | [] => []
  | .arr l :: rest => l ++ flat1 rest
  | v :: rest => v :: flat1 rest

/-- The values of the data object, flattened one level and joined with a
comma and a space, from the final error branch of `handleResponse`. -/
def joinedErrors (data : Obj) : String :=
  String.intercalate ", " ((flat1 (data.map Prod.snd)).map elemToString)

/-- `data.detail || fallback`: the detail field when present and truthy,
otherwise the fallback message. -/
def detailOr (data : Obj) (fallback : String) : String :=
  match lookupObj data "detail" with
  | some v => if jTruthy v then elemToString v else fallback
  | none => fallback

/-- The joined field errors, with the generic fallback message when they
come out empty. -/
def joinedOrDefault (data : Obj) : String :=
  if joinedErrors data = "" then "An error occurred" else joinedErrors data

/-- The message of the final branch of `handleResponse`: the detail field
when truthy, else the joined field errors, else the generic fallback. -/
def otherErrorMessage (data : Obj) : String :=
  match lookupObj data "detail" with
  | some v => if jTruthy v then elemToString v else joinedOrDefault data
  | none => joinedOrDefault data

/-- The body of a fetch response: either it parses as a JSON object, or
`response.json()` raises a SyntaxError. -/
inductive Body where
  | jsonBody (data : Obj)
  | notJson

/-- A fetch `Response`, reduced to the fields `handleResponse` reads. -/
structure Response where
  status : Nat
  body : Body

/-- `Response.ok` of the fetch API: status in the range 200..299. -/
def isOk (status : Nat) : Bool := 200 ≤ status && status < 300

/-- Shallow embedding of `handleResponse` (src/api-service.js lines 33-75).
A thrown `Error` is `Except.error` carrying its message; a normal return is
`Except.ok`. On a body that fails to parse, the catch block rethrows with a
status message when the response is not ok and returns the empty object
otherwise. -/
def handleResponse (r : Response) : Except String Obj :=
  match r.body with
  | .notJson =>
    if isOk r.status then .ok []
    else .error ("Request failed with status " ++ toString r.status)
  | .jsonBody data =>
    if isOk r.status then .ok data
    else if r.status = 401 then
      .error (detailOr data "Authentication failed. Please login again.")
    else if r.status = 403 then
      .error (detailOr data "You do not have permission to perform this action.")
    else if r.status = 404 then
      .error (detailOr data "The requested resource was not found.")
    else if 500 ≤ r.status then
      .error "Server error. Please try again later."
    else
      .error (otherErrorMessage data)

/-- The backend base URL configured at the top of api-service.js. -/
def API_URL : String := "https://omnisell-2.onrender.com"

/-- An HTTP request as issued by a client function: method, full URL, and
optional JSON body. -/
structure Request where
  method : String
  url : String
  body : Option Obj

/-- The field names of a request body, in order. -/
def bodyKeys (r : Request) : List String :=
  (r.body.getD []).map Prod.fst

/-- The request issued by `addToCart(productId, quantity)`
(src/api-service.js lines 683-703). -/
def addToCart (productId : Int) (quantity : Int := 1) : Request :=
  { method := "POST"
    url := API_URL ++ "/api/orders/cart/"
    body := some [("product", .num productId), ("quantity", .num quantity)] }

/-- The request issued by `updateCartItem(itemId, quantity)`
(src/api-service.js lines 712-729). -/
def updateCartItem (itemId : Int) (quantity : Int) : Request :=
  { method := "PATCH"
    url := API_URL ++ "/api/orders/cart/" ++ toString itemId ++ "/"
    body := some [("quantity", .num quantity)] }

/-- The request issued by `removeFromCart(itemId)`
(src/api-service.js lines 737-752). -/
def removeFromCart (itemId : Int) : Request :=
  { method := "DELETE"
    url := API_URL ++ "/api/orders/cart/" ++ toString itemId ++ "/"
    body := none }

/-- The request issued by `clearCart()` (src/api-service.js lines 759-774). -/
def clearCart : Request :=
  { method := "POST"
    url := API_URL ++ "/api/orders/cart/clear/"
    body := none }

/-- The request issued by `processPayment(paymentData)`
(src/api-service.js lines 911-928). -/
def processPayment (paymentData : Obj) : Request :=
  { method := "POST"
    url := API_URL ++ "/api/orders/payments/"
    body := some paymentData }

/-- The outcome of a `fetch` call: either a response arrived, or the promise
rejected with a network error. -/
inductive FetchResult where
  | success (r : Response)
  | networkError (msg : String)

/-- Shallow embedding of `verifyToken` (src/api-service.js lines 251-268) as a
function of the fetch outcome of the verification request: the try block
returns true once `handleResponse` returns normally, and the catch block
returns false on any thrown error. -/
def verifyToken (f : FetchResult) : Bool :=
  match f with
  | .networkError _ => false
  | .success r =>
    match handleResponse r with
    | .ok _ => true
    | .error _ => false

/-- JS field assignment `o.key = v`: replace the first field with that name,
or append the field when absent. -/
def setField (o : Obj) (key : String) (v : JVal) : Obj :=
  match o with
  | [] => [(key, v)]
  | (k, w) :: rest => if k = key then (key, v) :: rest else (k, w) :: setField rest key v

/-- The stored sellflow_user record when present, the empty object
otherwise, as parsed at the top of the token-refresh success branch. -/
def getOrEmpty (store : Option Obj) : Obj := store.getD []

/-- Shallow embedding of `refreshToken` (src/api-service.js lines 213-243) as
a function of the stored `sellflow_user` record and the fetch outcome.
Returns the stored record after the call and the result: on any thrown error
the catch block removes the record and rethrows; on success with a truthy
`access` field the stored record gets only its `access` field reassigned. -/
def refreshToken (store : Option Obj) (f : FetchResult) :
    Option Obj × Except String Obj :=
  match f with
  | .networkError m => (none, .error m)
  | .success r =>
    match handleResponse r with
    | .error e => (none, .error e)
    | .ok data =>
      match lookupObj data "access" with
      | some v =>
        if jTruthy v then (some (setField (getOrEmpty store) "access" v), .ok data)
        else (store, .ok data)
      | none => (store, .ok data)

end ApiService

namespace Core

/-- Modelled from the spec: product status, section 3 of the specification
(the backend implementing the catalog is not shipped under src/). -/
inductive ProductStatus where
  | draft
  | active
  | inactive
  | archived
deriving DecidableEq

/-- Modelled from the spec: a Product record, section 3 (price decimal,
stock_quantity a non-negative integer). Prices are in minor currency units. -/
structure Product where
  id : Nat
  price : Int
  stock_quantity : Nat
  status : ProductStatus
deriving DecidableEq

/-- Modelled from the spec: a cart line item, section 3. -/
structure CartItem where
  product : Nat
  quantity : Nat
deriving DecidableEq

/-- Modelled from the spec: a frozen order line item with the unit price
snapshotted at checkout, section 3. -/
structure OrderItem where
  product : Nat
  quantity : Nat
  unit_price : Int
deriving DecidableEq

/-- Modelled from the spec: order status, section 3. -/
inductive OrderStatus where
  | pending
  | confirmed
  | shipped
  | delivered
  | cancelled
deriving DecidableEq

/-- Modelled from the spec: payment status, section 4.3. -/
inductive PaymentStatus where
  | pending
  | completed
  | failed
deriving DecidableEq

/-- Modelled from the spec: an Order, section 3 (immutable identifier,
line-item snapshots, total_amount computed at creation). -/
structure Order where
  id : Nat
  items : List OrderItem
  total_amount : Int
  status : OrderStatus
deriving DecidableEq

/-- Modelled from the spec: a Payment, section 3 (status in pending,
completed, failed; transaction_id assigned on successful processing). -/
structure Payment where
  id : Nat
  order : Nat
  status : PaymentStatus
  transaction_id : Option String
deriving DecidableEq

/-- Modelled from the spec: the transactional store visible to one buyer,
sections 2 and 3: the catalog, the buyer cart, and the orders and payments
created by checkout. -/
structure DB where
  products : List Product
  cart : List CartItem
  orders : List Order
  payments : List Payment
  nextOrderId : Nat
  nextPaymentId : Nat
deriving DecidableEq

/-- Modelled from the spec: the checkout error taxonomy relevant to sections
4.2 and 7. -/
inductive CheckoutError where
  | EmptyCart
  | InsufficientStock (product : Nat)
deriving DecidableEq

/-- First product of the catalog with the given id, if any. -/
def findProduct (db : DB) (pid : Nat) : Option Product :=
  db.products.find? (fun p => p.id = pid)

/-- Modelled from the spec: the step-2 revalidation of one cart item, section
4.2 (the Product must still be active with enough stock). -/
def itemValid (db : DB) (it : CartItem) : Bool :=
  match findProduct db it.product with
  | none => false
  | some p => p.status = ProductStatus.active && it.quantity ≤ p.stock_quantity

/-- The first cart item failing the step-2 revalidation, if any. -/
def firstInvalid (db : DB) : List CartItem → Option Nat
  | [] => none
  | it :: rest => if itemValid db it then firstInvalid db rest else some it.product

/-- The live price of a product, 0 when absent (checkout only reads it for
validated items, whose product exists). -/
def livePrice (db : DB) (pid : Nat) : Int :=
  match findProduct db pid with
  | some p => p.price
  | none => 0

/-- Modelled from the spec: the order line-item snapshot taken in step 3 of
section 4.2, copying the price at this instant. -/
def snapshotItem (db : DB) (it : CartItem) : OrderItem :=
  { product := it.product, quantity := it.quantity, unit_price := livePrice db it.product }

/-- Modelled from the spec: total_amount as the sum of quantity times unit
price at creation time, section 3. -/
def orderTotal (items : List OrderItem) : Int :=
  (items.map (fun it => (it.quantity : Int) * it.unit_price)).sum

/-- Stock decrement of one product by the purchased quantity of one item. -/
def decOne (it : CartItem) (p : Product) : Product :=
  if p.id = it.product then { p with stock_quantity := p.stock_quantity - it.quantity } else p

/-- Modelled from the spec: decrement the stock of each purchased Product by
the purchased quantity, step 3 of section 4.2. -/
def decStocks (products : List Product) : List CartItem → List Product
  | [] => products
  | it :: rest => decStocks (products.map (decOne it)) rest

/-- Modelled from the spec: `checkout` of section 4.2, as one atomic step on
the store. Step 1 fails with EmptyCart on an empty cart; step 2 revalidates
every item and fails with InsufficientStock naming the offending product;
step 3 applies the four effects together: decrement stocks, create the Order
with snapshots, create a pending Payment, clear the cart. On error the store
is returned unchanged. -/
def checkout (db : DB) : DB × Except CheckoutError (Order × Payment) :=
  if db.cart.isEmpty then (db, .error .EmptyCart)
  else
    match firstInvalid db db.cart with
    | some pid => (db, .error (.InsufficientStock pid))
    | none =>
      let items := db.cart.map (snapshotItem db)
      let order : Order :=
        { id := db.nextOrderId, items := items, total_amount := orderTotal items
          status := .pending }
      let payment : Payment :=
        { id := db.nextPaymentId, order := order.id, status := .pending
          transaction_id := none }
      let db' : DB :=
        { products := decStocks db.products db.cart
          cart := []
          orders := db.orders ++ [order]
          payments := db.payments ++ [payment]
          nextOrderId := db.nextOrderId + 1
          nextPaymentId := db.nextPaymentId + 1 }
      (db', .ok (order, payment))

/-- Modelled from the spec: the payment provider outcome consumed by
`process_payment`, section 4.3 (confirmation with a transaction id, or a
decline/timeout). -/
inductive ProviderOutcome where
  | approve (transaction_id : String)
  | decline
deriving DecidableEq

/-- Modelled from the spec: the `process_payment` error for an unknown
payment id, section 7. -/
inductive PayError where
  | NotFound
deriving DecidableEq

/-- First payment with the given id, if any. -/
def findPayment (db : DB) (pid : Nat) : Option Payment :=
  db.payments.find? (fun p => p.id = pid)

/-- Replace the first payment with the given id. -/
def updatePayment (payments : List Payment) (pid : Nat) (pay : Payment) : List Payment :=
  match payments with
  | [] => []
  | p :: rest => if p.id = pid then pay :: rest else p :: updatePayment rest pid pay

/-- Modelled from the spec: `process_payment(payment_id)`, section 4.3. On a
payment still pending it runs the provider and records the terminal outcome
(completed with the transaction id, or failed); on a payment already in a
terminal state it returns the existing recorded result without touching the
provider or the store. -/
def processPayment (db : DB) (pid : Nat) (prov : ProviderOutcome) :
    DB × Except PayError Payment :=
  match findPayment db pid with
  | none => (db, .error .NotFound)
  | some pay =>
    if pay.status = PaymentStatus.pending then
      let pay' : Payment :=
        match prov with
        | .approve tx => { pay with status := .completed, transaction_id := some tx }
        | .decline => { pay with status := .failed }
      ({ db with payments := updatePayment db.payments pid pay' }, .ok pay')
    else (db, .ok pay)

end Core

namespace ApiService

/-- The status-class default message of the specification sentence about
error surfacing, as the claim words it: authentication failure for 401,
permission denial for 403, not-found for 404, a generic server-error message
for status at least 500, and the joined field errors otherwise. -/
def classMessage (status : Nat) (data : Obj) : String :=
  if status = 401 then "Authentication failed. Please login again."
  else if status = 403 then "You do not have permission to perform this action."
  else if status = 404 then "The requested resource was not found."
  else if 500 ≤ status then "Server error. Please try again later."
  else joinedErrors data

/-- The error message exactly as the claim words it: the body detail field
when present (truthy), otherwise the status-class-specific message. -/
def claimedMessage (status : Nat) (data : Obj) : String :=
  match lookupObj data "detail" with
  | some v => if jTruthy v then elemToString v else classMessage status data
  | none => classMessage status data

/-- The status-class default message after amendment: for 401, 403 and 404
the class-specific text; otherwise the joined field errors with the generic
fallback when they are empty. -/
def statusDefault (status : Nat) (data : Obj) : String :=
  if status = 401 then "Authentication failed. Please login again."
  else if status = 403 then "You do not have permission to perform this action."
  else if status = 404 then "The requested resource was not found."
  else joinedOrDefault data

/-- The error message as amended: a status of at least 500 always yields the
generic server-error message, detail included or not; below 500 the detail
field wins when truthy, else the status default applies. -/
def amendedMessage (status : Nat) (data : Obj) : String :=
  if 500 ≤ status then "Server error. Please try again later."
  else
    match lookupObj data "detail" with
    | some v => if jTruthy v then elemToString v else statusDefault status data
    | none => statusDefault status data

/-- A stored sellflow_user record with fields besides the tokens, for
concrete evaluation. -/
def storeSample : Obj := [("refresh", .str "r1"), ("isLoggedIn", .bool true)]

/-- A successful token-refresh response carrying a fresh access token, for
concrete evaluation. -/
def respSample : Response := { status := 200, body := .jsonBody [("access", .str "new")] }

end ApiService

namespace Core

/-- A store whose buyer cart is empty, for concrete evaluation. -/
def dbEmptyCart : DB :=
  { products := [{ id := 1, price := 10, stock_quantity := 5, status := .active }]
    cart := [], orders := [], payments := [], nextOrderId := 1, nextPaymentId := 1 }

/-- A store with one active product and one cart line item, for concrete
evaluation of a successful checkout. -/
def dbReady : DB :=
  { products := [{ id := 1, price := 10, stock_quantity := 5, status := .active }]
    cart := [{ product := 1, quantity := 2 }]
    orders := [], payments := [], nextOrderId := 1, nextPaymentId := 1 }

/-- The order that checking out `dbReady` creates. -/
def orderReady : Order :=
  { id := 1, items := [{ product := 1, quantity := 2, unit_price := 10 }]
    total_amount := 20, status := .pending }

/-- The payment that checking out `dbReady` creates. -/
def paymentReady : Payment :=
  { id := 1, order := 1, status := .pending, transaction_id := none }

/-- A payment already in a terminal state, for concrete evaluation. -/
def paymentDone : Payment :=
  { id := 1, order := 1, status := .completed, transaction_id := some "tx-1" }

/-- A store holding only `paymentDone`, for concrete evaluation. -/
def dbDone : DB :=
  { products := [], cart := [], orders := [], payments := [paymentDone]
    nextOrderId := 2, nextPaymentId := 2 }

end Core

/-! ## Helper lemmas -/

theorem lookupObj_setField_self (o : ApiService.Obj) (k : String) (v : ApiService.JVal) :
    ApiService.lookupObj (ApiService.setField o k v) k = some v := by
  induction o with
  | nil => simp [ApiService.setField, ApiService.lookupObj]
  | cons hd tl ih =>
    obtain ⟨k2, v2⟩ := hd
    by_cases h : k2 = k
    · simp [ApiService.setField, h, ApiService.lookupObj]
    · simp [ApiService.setField, h, ApiService.lookupObj, ih]

theorem lookupObj_setField_ne (o : ApiService.Obj) (k : String) (v : ApiService.JVal)
    (k2 : String) (h : k2 ≠ k) :
    ApiService.lookupObj (ApiService.setField o k v) k2 = ApiService.lookupObj o k2 := by
  induction o with
  | nil => simp [ApiService.setField, ApiService.lookupObj, Ne.symm h]
  | cons hd tl ih =>
    obtain ⟨k3, v3⟩ := hd
    by_cases hk : k3 = k
    · subst hk
      simp [ApiService.setField, ApiService.lookupObj, Ne.symm h]
    · by_cases hk2 : k3 = k2 <;>
        simp [ApiService.setField, ApiService.lookupObj, hk, hk2, ih, h]

theorem handleResponse_ok_of_isOk (r : ApiService.Response)
    (h : ApiService.isOk r.status = true) :
    ∃ d, ApiService.handleResponse r = .ok d := by
  cases hb : r.body with
  | jsonBody data => exact ⟨data, by simp [ApiService.handleResponse, hb, h]⟩
  | notJson => exact ⟨[], by simp [ApiService.handleResponse, hb, h]⟩

theorem handleResponse_json_not_ok (s : Nat) (data : ApiService.Obj)
    (h : ApiService.isOk s = false) :
    ApiService.handleResponse ⟨s, ApiService.Body.jsonBody data⟩
      = .error (ApiService.amendedMessage s data) := by
  simp only [ApiService.handleResponse, ApiService.amendedMessage, ApiService.detailOr,
    ApiService.otherErrorMessage, ApiService.statusDefault, h, Bool.false_eq_true, if_false]
  by_cases h5 : 500 ≤ s
  · simp [h5, show ¬ s = 401 by omega, show ¬ s = 403 by omega, show ¬ s = 404 by omega]
  · cases hd : ApiService.lookupObj data "detail" with
    | none => simp only [hd, h5, if_false]; split_ifs <;> rfl
    | some v =>
      cases ht : ApiService.jTruthy v <;>
        · simp only [hd, ht, h5, if_false, if_true, Bool.false_eq_true]
          split_ifs <;> rfl

theorem handleResponse_error_of_not_isOk (r : ApiService.Response)
    (h : ApiService.isOk r.status = false) :
    ∃ e, ApiService.handleResponse r = .error e := by
  cases hb : r.body with
  | notJson =>
    exact ⟨"Request failed with status " ++ toString r.status,
      by simp [ApiService.handleResponse, hb, h]⟩
  | jsonBody data =>
    refine ⟨ApiService.amendedMessage r.status data, ?_⟩
    have := handleResponse_json_not_ok r.status data h
    rw [← this]
    cases r
    simp only at hb
    rw [hb]

/-! ## Claim theorems -/

/-- Claim C1: checkout applies its four effects all together or not at all:
on every store, either it reports an error and the store is unchanged, or it
succeeds and simultaneously the stocks are decremented, the Order is
appended, a pending Payment is appended, and the cart is cleared. -/
theorem checkout_atomic (db : Core.DB) :
    (∀ e, (Core.checkout db).2 = .error e → (Core.checkout db).1 = db)
    ∧ (∀ o p, (Core.checkout db).2 = .ok (o, p) →
        (Core.checkout db).1.products = Core.decStocks db.products db.cart
        ∧ (Core.checkout db).1.orders = db.orders ++ [o]
        ∧ (Core.checkout db).1.payments = db.payments ++ [p]
        ∧ (Core.checkout db).1.cart = []
        ∧ p.status = Core.PaymentStatus.pending) := by
  by_cases h : db.cart.isEmpty
  · constructor
    · intro e _; simp [Core.checkout, h]
    · intro o p hop; simp [Core.checkout, h] at hop
  · cases hf : Core.firstInvalid db db.cart with
    | some pid =>
      constructor
      · intro e _; simp [Core.checkout, h, hf]
      · intro o p hop; simp [Core.checkout, h, hf] at hop
    | none =>
      constructor
      · intro e he; simp [Core.checkout, h, hf] at he
      · intro o p hop
        simp only [Core.checkout, h, hf, Bool.false_eq_true, if_false] at hop ⊢
        obtain ⟨ho, hp⟩ := by
          simpa using hop
        subst ho; subst hp
        simp

/-- Claim C1 witness: on a store with an empty cart the checkout error leaves
the store unchanged, and on a ready store the successful checkout shows all
four effects at once. -/
theorem checkout_atomic_witness :
    (Core.checkout Core.dbEmptyCart).1 = Core.dbEmptyCart
    ∧ ((Core.checkout Core.dbReady).1.products
        = Core.decStocks Core.dbReady.products Core.dbReady.cart
      ∧ (Core.checkout Core.dbReady).1.orders = Core.dbReady.orders ++ [Core.orderReady]
      ∧ (Core.checkout Core.dbReady).1.payments = Core.dbReady.payments ++ [Core.paymentReady]
      ∧ (Core.checkout Core.dbReady).1.cart = []
      ∧ Core.paymentReady.status = Core.PaymentStatus.pending) :=
  ⟨(checkout_atomic Core.dbEmptyCart).1 Core.CheckoutError.EmptyCart rfl,
   (checkout_atomic Core.dbReady).2 Core.orderReady Core.paymentReady rfl⟩

/-- Claim C2: checkout on a buyer whose cart has zero items fails with the
EmptyCart error, creates no Order and no Payment, and leaves the store
unchanged. -/
theorem checkout_empty_cart (db : Core.DB) (h : db.cart = []) :
    Core.checkout db = (db, .error Core.CheckoutError.EmptyCart)
    ∧ (Core.checkout db).1.orders = db.orders
    ∧ (Core.checkout db).1.payments = db.payments := by
  have hc : db.cart.isEmpty = true := by simp [h]
  refine ⟨?_, ?_, ?_⟩ <;> simp [Core.checkout, hc]

/-- Claim C2 witness: the concrete empty-cart store checks out to the
EmptyCart error with nothing created. -/
theorem checkout_empty_cart_witness :
    Core.checkout Core.dbEmptyCart = (Core.dbEmptyCart, .error Core.CheckoutError.EmptyCart)
    ∧ (Core.checkout Core.dbEmptyCart).1.orders = Core.dbEmptyCart.orders
    ∧ (Core.checkout Core.dbEmptyCart).1.payments = Core.dbEmptyCart.payments :=
  checkout_empty_cart Core.dbEmptyCart rfl

/-- Claim C3: once a payment has left pending, process_payment is idempotent
for its id: every further invocation returns the recorded terminal result,
leaves the store untouched, and its outcome does not depend on the provider. -/
theorem processPayment_idempotent (db : Core.DB) (pid : Nat) (pay : Core.Payment)
    (h : Core.findPayment db pid = some pay)
    (hterm : pay.status ≠ Core.PaymentStatus.pending) :
    ∀ prov prov2,
      Core.processPayment db pid prov = (db, .ok pay)
      ∧ Core.processPayment db pid prov2 = Core.processPayment db pid prov := by
  intro prov prov2
  constructor <;> simp [Core.processPayment, h, hterm]

/-- Claim C3 witness: the completed sample payment is returned as recorded by
two further invocations with different provider outcomes, with no change to
the store. -/
theorem processPayment_idempotent_witness :
    (Core.processPayment Core.dbDone 1 .decline = (Core.dbDone, .ok Core.paymentDone)
    ∧ Core.processPayment Core.dbDone 1 (.approve "t2")
      = Core.processPayment Core.dbDone 1 .decline) :=
  processPayment_idempotent Core.dbDone 1 Core.paymentDone rfl (by decide)
    Core.ProviderOutcome.decline (Core.ProviderOutcome.approve "t2")

/-- Claim C4: the request issued by processPayment does not put the payment
id into the URL path; at the concrete payment id 7 its URL differs from the
process path documented in the README, so the client contradicts the
documented surface. -/
theorem processPayment_path_counterexample :
    ¬ (ApiService.processPayment [("payment_id", ApiService.JVal.num 7)]).url
      = ApiService.API_URL ++ "/api/orders/payments/7/process/" := by decide

/-- The request processPayment actually issues: an HTTP POST to the fixed
path of the payments collection, with the payment data as the JSON body and
no id in the URL path. -/
theorem processPayment_request (paymentData : ApiService.Obj) :
    (ApiService.processPayment paymentData).method = "POST"
    ∧ (ApiService.processPayment paymentData).url
      = ApiService.API_URL ++ "/api/orders/payments/"
    ∧ (ApiService.processPayment paymentData).body = some paymentData :=
  ⟨rfl, rfl, rfl⟩

/-- Claim C5: at product id 7 and quantity 2 the add-to-cart request neither
targets the add_item path documented in the README nor carries the body keys
product_id and quantity, so the client contradicts the documented surface. -/
theorem addToCart_counterexample :
    ¬ ((ApiService.addToCart 7 2).url = ApiService.API_URL ++ "/api/orders/cart/add_item/"
      ∧ ApiService.bodyKeys (ApiService.addToCart 7 2) = ["product_id", "quantity"]) := by
  decide

/-- The request addToCart actually issues: an HTTP POST to the cart
collection path with a JSON body whose keys are product and quantity. -/
theorem addToCart_request (productId quantity : Int) :
    (ApiService.addToCart productId quantity).method = "POST"
    ∧ (ApiService.addToCart productId quantity).url
      = ApiService.API_URL ++ "/api/orders/cart/"
    ∧ (ApiService.addToCart productId quantity).body
      = some [("product", .num productId), ("quantity", .num quantity)] :=
  ⟨rfl, rfl, rfl⟩

/-- Claim C6: at item id 7 and quantity 2 the cart-item update request is
not a PUT and does not target the update_item path documented in the README,
so the client contradicts the documented surface. -/
theorem updateCartItem_counterexample :
    ¬ ((ApiService.updateCartItem 7 2).method = "PUT"
      ∧ (ApiService.updateCartItem 7 2).url
        = ApiService.API_URL ++ "/api/orders/cart/update_item/7/") := by
  decide

/-- The request updateCartItem actually issues: an HTTP PATCH to the cart
item path carrying the item id, with JSON body holding only the quantity. -/
theorem updateCartItem_request (itemId quantity : Int) :
    (ApiService.updateCartItem itemId quantity).method = "PATCH"
    ∧ (ApiService.updateCartItem itemId quantity).url
      = ApiService.API_URL ++ "/api/orders/cart/" ++ toString itemId ++ "/"
    ∧ (ApiService.updateCartItem itemId quantity).body
      = some [("quantity", .num quantity)] :=
  ⟨rfl, rfl, rfl⟩

/-- Claim C7: the clear-cart request is not an HTTP DELETE to the clear path
as the README documents it, so the client contradicts the documented
surface. -/
theorem clearCart_counterexample :
    ¬ (ApiService.clearCart.method = "DELETE"
      ∧ ApiService.clearCart.url = ApiService.API_URL ++ "/api/orders/cart/clear/") := by
  decide

/-- The request clearCart actually issues: an HTTP POST to the clear path
with no body. -/
theorem clearCart_request :
    ApiService.clearCart.method = "POST"
    ∧ ApiService.clearCart.url = ApiService.API_URL ++ "/api/orders/cart/clear/"
    ∧ ApiService.clearCart.body = none :=
  ⟨rfl, rfl, rfl⟩

/-- Claim C8 counterexample: a 500 response carrying a truthy detail field is
reported with the generic server-error message, not with the detail text the
claim prescribes. -/
theorem handleResponse_detail_counterexample :
    ¬ ApiService.handleResponse
        { status := 500, body := .jsonBody [("detail", ApiService.JVal.str "boom")] }
      = .error (ApiService.claimedMessage 500 [("detail", ApiService.JVal.str "boom")]) := by
  intro h
  rw [show ApiService.handleResponse
        { status := 500, body := .jsonBody [("detail", ApiService.JVal.str "boom")] }
      = Except.error "Server error. Please try again later." from rfl] at h
  rw [show ApiService.claimedMessage 500 [("detail", ApiService.JVal.str "boom")]
      = "boom" from rfl] at h
  injection h with h2
  exact absurd h2 (by decide)

/-- Claim C8 as amended: on a JSON body, handleResponse returns the parsed
body when the status is ok and otherwise always throws, with the message of
the amended taxonomy: statuses of at least 500 always get the generic
server-error message; below 500 a truthy detail field wins, else 401, 403 and
404 get their class message and anything else the joined field errors with a
generic fallback. -/
theorem handleResponse_messages (r : ApiService.Response) (data : ApiService.Obj)
    (hb : r.body = ApiService.Body.jsonBody data) :
    (ApiService.isOk r.status = false →
      ApiService.handleResponse r = .error (ApiService.amendedMessage r.status data))
    ∧ (ApiService.isOk r.status = true → ApiService.handleResponse r = .ok data) := by
  obtain ⟨s, b⟩ := r
  simp only at hb
  subst hb
  constructor
  · intro h
    exact handleResponse_json_not_ok s data h
  · intro h
    simp [ApiService.handleResponse, h]

/-- Claim C8 witness: a concrete 404 with no detail throws the not-found
message, and a concrete ok response returns its parsed body. -/
theorem handleResponse_messages_witness :
    ApiService.handleResponse { status := 404, body := .jsonBody [] }
      = .error "The requested resource was not found."
    ∧ ApiService.handleResponse
        { status := 200, body := .jsonBody [("a", ApiService.JVal.num 1)] }
      = .ok [("a", ApiService.JVal.num 1)] :=
  ⟨(handleResponse_messages { status := 404, body := .jsonBody [] } [] rfl).1 rfl,
   (handleResponse_messages { status := 200, body := .jsonBody [("a", ApiService.JVal.num 1)] }
      [("a", ApiService.JVal.num 1)] rfl).2 rfl⟩

/-- Claim C9: verifyToken is a total Boolean function of the fetch outcome:
it returns true exactly when a response arrived with an ok status, and false
on every failure path (non-ok response, network error, or a non-JSON body on
an error status), never propagating an exception. -/
theorem verifyToken_total (f : ApiService.FetchResult) :
    ApiService.verifyToken f = true
      ↔ ∃ r, f = ApiService.FetchResult.success r ∧ ApiService.isOk r.status = true := by
  cases f with
  | networkError m => simp [ApiService.verifyToken]
  | success r =>
    cases hok : ApiService.isOk r.status with
    | true =>
      obtain ⟨d, hd⟩ := handleResponse_ok_of_isOk r hok
      simp [ApiService.verifyToken, hd, hok]
    | false =>
      obtain ⟨e, he⟩ := handleResponse_error_of_not_isOk r hok
      simp [ApiService.verifyToken, he, hok]

/-- Claim C10: on any failed refresh the whole stored sellflow_user record is
removed before the error is rethrown, and on a success carrying a truthy
access token only the access field of the stored record is rewritten, every
other field keeping its value. -/
theorem refreshToken_storage :
    (∀ store m, ApiService.refreshToken store (.networkError m) = (none, .error m))
    ∧ (∀ store r e, ApiService.handleResponse r = .error e →
        ApiService.refreshToken store (.success r) = (none, .error e))
    ∧ (∀ store r data v, ApiService.handleResponse r = .ok data →
        ApiService.lookupObj data "access" = some v → ApiService.jTruthy v = true →
        ApiService.refreshToken store (.success r)
          = (some (ApiService.setField (ApiService.getOrEmpty store) "access" v), .ok data)
        ∧ ApiService.lookupObj
            (ApiService.setField (ApiService.getOrEmpty store) "access" v) "access" = some v
        ∧ ∀ k, k ≠ "access" →
            ApiService.lookupObj (ApiService.setField (ApiService.getOrEmpty store) "access" v) k
              = ApiService.lookupObj (ApiService.getOrEmpty store) k) := by
  refine ⟨fun store m => rfl, fun store r e h => by simp [ApiService.refreshToken, h], ?_⟩
  intro store r data v h ha ht
  exact ⟨by simp [ApiService.refreshToken, h, ha, ht],
    lookupObj_setField_self _ _ _,
    fun k hk => lookupObj_setField_ne _ _ _ _ hk⟩

/-- Claim C10 witness: on the sample store a successful refresh rewrites only
the access field, the refresh field reads back unchanged, and a network
failure wipes the record and rethrows. -/
theorem refreshToken_storage_witness :
    ApiService.refreshToken (some ApiService.storeSample)
        (.success ApiService.respSample)
      = (some (ApiService.setField (ApiService.getOrEmpty (some ApiService.storeSample))
          "access" (ApiService.JVal.str "new")),
        .ok [("access", ApiService.JVal.str "new")])
    ∧ ApiService.lookupObj
        (ApiService.setField (ApiService.getOrEmpty (some ApiService.storeSample))
          "access" (ApiService.JVal.str "new")) "refresh"
      = ApiService.lookupObj (ApiService.getOrEmpty (some ApiService.storeSample)) "refresh"
    ∧ ApiService.refreshToken (some ApiService.storeSample) (.networkError "net")
      = (none, .error "net") :=
  ⟨(refreshToken_storage.2.2 (some ApiService.storeSample) ApiService.respSample
      [("access", ApiService.JVal.str "new")] (ApiService.JVal.str "new") rfl rfl rfl).1,
   (refreshToken_storage.2.2 (some ApiService.storeSample) ApiService.respSample
      [("access", ApiService.JVal.str "new")] (ApiService.JVal.str "new") rfl rfl rfl).2.2
     "refresh" (by decide),
   refreshToken_storage.1 (some ApiService.storeSample) "net"⟩
